import Mathlib

/-!
Shallow embedding of `r3c0nkthx.py` (a recon wrapper script) and proofs about
its per-domain pipeline: archive lookup (`check_wayback_urls`), HTTP probe
(`check_http_response`), pattern scan (`find_interesting_urls`), report
rendering (`print_colored_output`), per-domain composition (`process_domain`)
and input classification (`process_input`).

External subprocess invocations (`subprocess.run`) are modelled by an
`Except String ProcOut` value: `Except.error e` is an exception raised while
spawning/running the process (caught by the script's `try/except`), and
`Except.ok o` is a completed process with captured standard output `o.stdout`
and exit status `o.exitCode`.  Note that Python's `subprocess.run` without
`check=True` does NOT raise on a non-zero exit status; that behaviour is
reflected here by `check_wayback_urls` and `check_http_response` never
inspecting `exitCode`.
-/

namespace Recon

/-! ### Python string primitives -/

/-- ASCII whitespace recognised by Python's `str.strip()` (the script only
ever strips ASCII subprocess output, so the Unicode cases are irrelevant). -/
def pySpace (c : Char) : Bool :=
  c = ' ' || c = '\t' || c = '\n' || c = '\r' || c = Char.ofNat 11 || c = Char.ofNat 12

/-- Python `s.strip()`: drop whitespace from both ends. -/
def pyStrip (s : String) : String :=
  String.mk (((s.data.dropWhile pySpace).reverse.dropWhile pySpace).reverse)

/-- `leadsWith p s`: `p` is an initial segment of `s` (character lists). -/
def leadsWith : List Char → List Char → Bool
  | [], _ => true
  | _ :: _, [] => false
  | a :: as, b :: bs => a = b && leadsWith as bs

/-- `occursIn p s`: `p` occurs contiguously somewhere inside `s`. -/
def occursIn (p : List Char) : List Char → Bool
  | [] => leadsWith p []
  | c :: cs => leadsWith p (c :: cs) || occursIn p cs

/-- Python's `p in u` substring test on strings (case-sensitive, literal). -/
def pyIn (p u : String) : Bool := occursIn p.data u.data

/-- Python `s.split(sep)` for a one-character separator, on character lists:
splits at every occurrence, keeping empty segments; the empty input yields
one empty segment. -/
def pySplitCh (sep : Char) : List Char → List (List Char)
  | [] => [[]]
  | c :: rest =>
    if c = sep then [] :: pySplitCh sep rest
    else
      match pySplitCh sep rest with
      | [] => [[c]]
      | h :: t => (c :: h) :: t

/-- Python `s.split(sep)` for a one-character separator, on strings. -/
def pySplit (sep : Char) (s : String) : List String :=
  (pySplitCh sep s.data).map fun l => String.mk l

/-- Tail of a Python integer literal body after its first digit: digits with
single underscores allowed between digits (`int("1_0") = 10`,
`int("1__0")` and `int("1_")` raise). -/
def pyDigitsRest : List Char → Bool
  | [] => true
  | ['_'] => false
  | '_' :: c :: cs => c.isDigit && pyDigitsRest cs
  | c :: cs => c.isDigit && pyDigitsRest cs

/-- A valid unsigned Python integer literal body: nonempty, starts with a
digit, underscores only between digits. -/
def pyDigitsOk : List Char → Bool
  | [] => false
  | c :: cs => c.isDigit && pyDigitsRest cs

/-- Numeric value of a digit string, ignoring underscores. -/
def pyDigitsVal (cs : List Char) : Nat :=
  cs.foldl (fun acc c => if c = '_' then acc else acc * 10 + (c.toNat - '0'.toNat)) 0

/-- Python `int(s)` on an already-stripped string (the script always strips
first): optional sign then digits, `none` models a `ValueError`.  Restricted
to ASCII digits, which is all the probed tool can emit. -/
def pyInt (s : String) : Option Int :=
  match s.data with
  | '+' :: rest => if pyDigitsOk rest then some (pyDigitsVal rest : Int) else none
  | '-' :: rest => if pyDigitsOk rest then some (-(pyDigitsVal rest : Int)) else none
  | rest => if pyDigitsOk rest then some (pyDigitsVal rest : Int) else none

/-! ### Subprocess model -/

/-- Captured outcome of a completed subprocess (`subprocess.run` with
`capture_output=True, text=True`). -/
structure ProcOut where
  stdout : String
  exitCode : Int
deriving DecidableEq

/-- Outcome of attempting a subprocess invocation: `Except.error` is a raised
exception (spawn failure etc.), `Except.ok` a completed process — completed
with any exit status, since the script never passes `check=True`. -/
abbrev RunOutcome := Except String ProcOut

/-! ### check_wayback_urls (source lines 75–85) -/

/-- `check_wayback_urls(domain, verbose)`: given the outcome of
`subprocess.run(['waybackurls', domain], ...)`, returns
`result.stdout.strip().split('\n')` on a completed process (exit status is
never inspected), or `[]` when the invocation raised; second component is the
console output (verbose URL echo, or the error message). -/
def check_wayback_urls (domain : String) (run : RunOutcome) (verbose : Bool) :
    List String × List String :=
  match run with
  | Except.ok o =>
    let urls := pySplit '\n' (pyStrip o.stdout)
    (urls, if verbose then urls.map (fun u => "Wayback URL: " ++ u) else [])
  | Except.error e => ([], ["Error running waybackurls for " ++ domain ++ ": " ++ e])

/-! ### check_http_response (source lines 88–99) -/

/-- `check_http_response(domain, proxy, verbose)`: parses
`int(result.stdout.strip())` from the completed curl process; any raised
exception — spawn failure or the `ValueError` from `int` — is caught and
yields `none`.  Second component is the console output. -/
def check_http_response (domain : String) (run : RunOutcome) (verbose : Bool) :
    Option Int × List String :=
  match run with
  | Except.ok o =>
    let vtrace := if verbose then ["HTTP response: " ++ o.stdout] else []
    match pyInt (pyStrip o.stdout) with
    | some n => (some n, vtrace)
    | none => (none, vtrace ++ ["Error running curl for " ++ domain ++ ": ValueError"])
  | Except.error e => (none, ["Error running curl for " ++ domain ++ ": " ++ e])

/-! ### print_colored_output (source lines 102–131) -/

/-- ANSI bold wrapper `\033[1m…\033[0m`. -/
def bold (s : String) : String := "\x1b[1m" ++ s ++ "\x1b[0m"

/-- ANSI green wrapper `\033[92m…\033[0m`. -/
def green (s : String) : String := "\x1b[92m" ++ s ++ "\x1b[0m"

/-- ANSI yellow wrapper `\033[93m…\033[0m`. -/
def yellow (s : String) : String := "\x1b[93m" ++ s ++ "\x1b[0m"

/-- ANSI red wrapper `\033[91m…\033[0m`. -/
def red (s : String) : String := "\x1b[91m" ++ s ++ "\x1b[0m"

/-- Rendering of the wayback count (source lines 107–110): green exactly when
`5 <= wayback_count <= 9999`. -/
def waybackColor (n : Nat) : String :=
  if 5 ≤ n ∧ n ≤ 9999 then green (toString n) else toString n

/-- Python's f-string rendering of the optional status (`None` when absent). -/
def statusStr : Option Int → String
  | some n => toString n
  | none => "None"

/-- Rendering of the HTTP status (source lines 113–120): the `if/elif` chain
over `200`, `[301, 302, 404]`, `[400, 401, 403, 503]`, else unstyled.  An
absent status compares unequal to every integer, so it falls through. -/
def httpColor (s : Option Int) : String :=
  if s = some 200 then green (statusStr s)
  else if s = some 301 ∨ s = some 302 ∨ s = some 404 then yellow (statusStr s)
  else if s = some 400 ∨ s = some 401 ∨ s = some 403 ∨ s = some 503 then red (statusStr s)
  else statusStr s

/-- `print_colored_output`: console lines for one domain — summary line,
header, then one line per pattern with a non-zero count, in pattern order. -/
def print_colored_output (domain : String) (waybackCount : Nat) (status : Option Int)
    (counts : List (String × Nat)) : List String :=
  (bold domain ++ " | Wayback URLs: " ++ waybackColor waybackCount
      ++ " | HTTP Status Code: " ++ httpColor status)
  :: "Wayback URLs with Interesting Directories or Parameters:"
  :: (counts.filter (fun kv => 0 < kv.2)).map
      (fun kv => " - " ++ kv.1 ++ " URLs: [" ++ toString kv.2 ++ "]")

/-! ### find_interesting_urls (source lines 134–152) -/

/-- The fixed pattern dictionary's keys, in insertion order. -/
def patternKeys : List String :=
  ["/api/", "/admin/", "/js/", "/account/", "/cgi-bin/", "/wp-admin/",
   "response_type=token", "password=", "isAdmin="]

/-- One iteration of the outer loop: for each pattern, increment its counter
when the pattern occurs in `url` (`if pattern in url: patterns[pattern] += 1`). -/
def bumpCounts (url : String) (counts : List (String × Nat)) : List (String × Nat) :=
  counts.map fun kv => if pyIn kv.1 url then (kv.1, kv.2 + 1) else kv

/-- `find_interesting_urls(urls)`: fold the per-URL bump over the
zero-initialised pattern dictionary. -/
def find_interesting_urls (urls : List String) : List (String × Nat) :=
  urls.foldl (fun acc url => bumpCounts url acc) (patternKeys.map fun p => (p, 0))

/-- Count associated to key `p` in a scan result (`0` for a missing key). -/
def lookupCount (p : String) (counts : List (String × Nat)) : Nat :=
  (counts.lookup p).getD 0

/-! ### process_domain (source lines 155–167) -/

/-- The aggregated per-domain result handed to the reporter (spec §3
`DomainReport`): domain, archive-URL count, optional status, pattern counts. -/
structure DomainReport where
  domain : String
  waybackCount : Nat
  httpStatus : Option Int
  counts : List (String × Nat)
deriving DecidableEq

/-- External-world outcomes one `process_domain` call observes: the waybackurls
invocation, the curl invocation, and — when an output file is configured — the
outcome of `open(output_file, 'a')` plus the writes (`Except.error` models a
raised `OSError`, e.g. a permission failure). -/
structure PDEnv where
  wayback : RunOutcome
  curl : RunOutcome
  fileAppend : Except String Unit

/-- Lines appended to the output file for one domain (source lines 162–165):
summary with the raw (uncolored) count and status, then the non-zero patterns. -/
def fileLines (domain : String) (waybackCount : Nat) (status : Option Int)
    (counts : List (String × Nat)) : List String :=
  (domain ++ " | Wayback URLs: " ++ toString waybackCount
      ++ " | HTTP Status Code: " ++ statusStr status)
  :: (counts.filter (fun kv => 0 < kv.2)).map
      (fun kv => " - " ++ kv.1 ++ " URLs: [" ++ toString kv.2 ++ "]")

/-- `process_domain(domain, proxy, verbose, output_file)`: lookup, probe, scan,
then file append (when configured) and console print.  The result carries the
DomainReport, the console lines, and the file lines.  When the file open/write
raises, the exception propagates out of `process_domain` BEFORE
`print_colored_output` runs: no report is printed and nothing is returned —
modelled by `Except.error`. -/
def process_domain (domain : String) (env : PDEnv) (verbose : Bool)
    (outputFile : Option String) :
    Except String (DomainReport × List String × List String) :=
  let w := check_wayback_urls domain env.wayback verbose
  let h := check_http_response domain env.curl verbose
  let counts := find_interesting_urls w.1
  let rep : DomainReport := ⟨domain, w.1.length, h.1, counts⟩
  let preTrace := w.2 ++ h.2
  match outputFile with
  | none =>
    Except.ok (rep, preTrace ++ print_colored_output domain w.1.length h.1 counts, [])
  | some _ =>
    match env.fileAppend with
    | Except.ok _ =>
      Except.ok (rep, preTrace ++ print_colored_output domain w.1.length h.1 counts,
        fileLines domain w.1.length h.1 counts)
    | Except.error e => Except.error e

/-! ### process_input (source lines 169–184) -/

/-- The visible file system: maps a path to the contents of an existing
regular file, `none` when opening raises `FileNotFoundError` (the only open
failure the script catches). -/
abbrev FileSys := String → Option String

/-- The input-classification step of `process_input` (source lines 171–178):
comma split (trimmed) first; else an existing file's non-blank lines, each
trimmed (Python's line iteration splits at newlines; the newline kept on each
line is removed by the `strip`, and a trailing blank piece is filtered out, so
splitting the contents at every newline is observably identical); else the
raw input, trimmed, as a single literal domain. -/
def parse_domains (fs : FileSys) (input : String) : List String :=
  if pyIn "," input then
    (pySplit ',' input).map pyStrip
  else
    match fs input with
    | some contents => ((pySplit '\n' contents).map pyStrip).filter (fun s => s ≠ "")
    | none => [pyStrip input]

/-- External-world outcomes for a whole run: the file system consulted by the
dispatcher, and per-domain subprocess/file outcomes.  The worker pool runs
domains concurrently with nondeterministic completion order; the model lists
per-domain results in input order (claims proved here do not depend on the
interleaving). -/
structure World where
  fs : FileSys
  wayback : String → RunOutcome
  curl : String → Option String → RunOutcome
  fileAppend : String → Except String Unit

/-- Environment one domain's pipeline observes, drawn from the world. -/
def World.envFor (w : World) (proxy : Option String) (d : String) : PDEnv :=
  ⟨w.wayback d, w.curl d proxy, w.fileAppend d⟩

/-- `process_input(input_data, proxy, verbose, output_file)`: classify the
input into domains, then run `process_domain` for each. -/
def process_input (w : World) (input : String) (proxy : Option String)
    (verbose : Bool) (outputFile : Option String) :
    List (Except String (DomainReport × List String × List String)) :=
  (parse_domains w.fs input).map fun d =>
    process_domain d (w.envFor proxy d) verbose outputFile

/-! ### Command line (source lines 187–205) -/

/-- Parsed command-line flags: `argparse` stores `-v` into `v` and `-vv` into
`vv` (both `store_true`, mutually independent). -/
structure Args where
  input : String
  output : Option String
  proxy : Option String
  v : Bool
  vv : Bool

/-- The `__main__` entry (source line 205): the pipeline is invoked with
`verbose = args.v or args.vv`. -/
def mainRun (w : World) (a : Args) :
    List (Except String (DomainReport × List String × List String)) :=
  process_input w a.input a.proxy (a.v || a.vv) a.output

/-! ### Pattern-scanner lemmas -/

/-- Folding the per-URL bump over any initial counts list adds, to each entry,
the number of URLs containing that entry's pattern. -/
theorem find_foldl_eq (urls : List String) (init : List (String × Nat)) :
    urls.foldl (fun acc url => bumpCounts url acc) init
      = init.map fun kv => (kv.1, kv.2 + urls.countP fun u => pyIn kv.1 u) := by
  induction urls generalizing init with
  | nil => simp
  | cons u us ih =>
    rw [List.foldl_cons, ih, bumpCounts, List.map_map]
    refine List.map_congr_left fun kv _ => ?_
    by_cases h : pyIn kv.1 u <;>
        simp [Function.comp, h, List.countP_cons]
    all_goals omega

/-- The scan result is the pattern-key list paired with, for each pattern, the
number of URLs containing it as a substring. -/
theorem find_interesting_urls_eq (urls : List String) :
    find_interesting_urls urls
      = patternKeys.map fun p => (p, urls.countP fun u => pyIn p u) := by
  rw [find_interesting_urls, find_foldl_eq, List.map_map]
  refine List.map_congr_left fun p _ => ?_
  simp [Function.comp]

/-- Association lookup over keys paired with a function of the key. -/
theorem lookup_map_keys (f : String → Nat) (p : String) (keys : List String) :
    (keys.map fun k => (k, f k)).lookup p = (keys.find? fun k => p == k).map f := by
  induction keys with
  | nil => rfl
  | cons k ks ih =>
    cases h : (p == k) <;> simp [List.lookup, List.find?, h, ih]

/-- C3: for every sequence of URL strings, `find_interesting_urls` returns a
count for each of the 9 fixed patterns equal to the number of URLs in the
sequence containing that pattern as a case-sensitive substring; a URL
containing a pattern several times still counts once for it (the inner loop
tests presence, not occurrences), and one URL may count for several patterns
(`countP` is taken independently per pattern). -/
theorem claim_C3_scanner_counts : ∀ urls : List String,
    find_interesting_urls urls
      = patternKeys.map fun p => (p, urls.countP fun u => pyIn p u) :=
  find_interesting_urls_eq

/-- C6: scanner counts are non-negative naturals, appending a URL never
decreases any pattern's count, and appending one URL increases each count by
at most 1. -/
theorem claim_C6_scanner_monotone :
    ∀ (urls : List String) (u p : String),
      0 ≤ lookupCount p (find_interesting_urls urls)
      ∧ lookupCount p (find_interesting_urls urls)
          ≤ lookupCount p (find_interesting_urls (urls ++ [u]))
      ∧ lookupCount p (find_interesting_urls (urls ++ [u]))
          ≤ lookupCount p (find_interesting_urls urls) + 1 := by
  intro urls u p
  refine ⟨Nat.zero_le _, ?_, ?_⟩ <;>
  · rw [lookupCount, lookupCount, find_interesting_urls_eq, find_interesting_urls_eq,
      lookup_map_keys, lookup_map_keys]
    cases hf : patternKeys.find? fun k => p == k with
    | none => simp
    | some k =>
      have h1 : ([u].countP fun x => pyIn k x) ≤ 1 := by
        by_cases h : pyIn k u <;> simp [h]
      simp only [Option.map_some', Option.getD_some, List.countP_append]
      omega

/-! ### Reporter lemmas -/

/-- The green wrapper changes the string (it adds nine characters), so the
highlighted and unstyled renderings never coincide. -/
theorem green_ne_self (s : String) : green s ≠ s := by
  intro h
  have hl := congrArg String.length h
  rw [green, String.length_append, String.length_append,
    show ("\x1b[92m" : String).length = 5 from rfl,
    show ("\x1b[0m" : String).length = 4 from rfl] at hl
  omega

/-- C7: the archive-count highlight is applied exactly when the count lies in
the inclusive range `[5, 9999]`; in particular 4 and 10000 render unstyled
while 5 and 9999 render highlighted. -/
theorem claim_C7_wayback_highlight :
    (∀ n : Nat, waybackColor n = green (toString n) ↔ 5 ≤ n ∧ n ≤ 9999)
    ∧ waybackColor 4 = toString 4
    ∧ waybackColor 5 = green (toString 5)
    ∧ waybackColor 9999 = green (toString 9999)
    ∧ waybackColor 10000 = toString 10000 := by
  refine ⟨fun n => ⟨fun hg => ?_, fun hc => ?_⟩, by decide, by decide, by decide, by decide⟩
  · by_contra hc
    rw [waybackColor, if_neg hc] at hg
    exact green_ne_self _ hg.symm
  · rw [waybackColor, if_pos hc]

/-- C7 witness: a concrete in-range count is highlighted. -/
theorem claim_C7_witness : waybackColor 7 = green (toString 7) :=
  (claim_C7_wayback_highlight.1 7).mpr (by decide)

/-- C8: status 200 renders in the green tier; 301, 302 and 404 in the yellow
tier; 400, 401, 403 and 503 in the red tier; every other value — including an
absent status, rendered `"None"` — is unstyled. -/
theorem claim_C8_http_tiers :
    (∀ s : Option Int,
      (s = some 200 → httpColor s = green (statusStr s))
      ∧ ((s = some 301 ∨ s = some 302 ∨ s = some 404) → httpColor s = yellow (statusStr s))
      ∧ ((s = some 400 ∨ s = some 401 ∨ s = some 403 ∨ s = some 503) →
          httpColor s = red (statusStr s))
      ∧ (s ∉ ([some 200, some 301, some 302, some 404, some 400, some 401, some 403,
            some 503] : List (Option Int)) → httpColor s = statusStr s))
    ∧ httpColor (some 418) = statusStr (some 418)
    ∧ httpColor none = "None" := by
  refine ⟨fun s => ⟨?_, ?_, ?_, ?_⟩, by decide, by decide⟩
  · rintro rfl; decide
  · rintro (rfl | rfl | rfl) <;> decide
  · rintro (rfl | rfl | rfl | rfl) <;> decide
  · intro h
    simp only [List.mem_cons, List.not_mem_nil, or_false, not_or] at h
    obtain ⟨h1, h2, h3, h4, h5, h6, h7, h8⟩ := h
    rw [httpColor, if_neg h1, if_neg (by tauto), if_neg (by tauto)]

/-- C8 witness: status 200 is rendered in the green tier. -/
theorem claim_C8_witness : httpColor (some 200) = green (statusStr (some 200)) :=
  (claim_C8_http_tiers.1 (some 200)).1 rfl

/-! ### Archive-lookup and probe lemmas -/

/-- Splitting a character list at a separator always yields at least one
piece. -/
theorem pySplitCh_ne_nil (sep : Char) (cs : List Char) : pySplitCh sep cs ≠ [] := by
  cases cs with
  | nil => simp [pySplitCh]
  | cons c rest =>
    rw [pySplitCh]
    by_cases h : c = sep
    · simp [h]
    · rw [if_neg h]
      cases hr : pySplitCh sep rest <;> simp

/-- C10: whenever the waybackurls invocation completes without an exception —
whatever its exit status — `check_wayback_urls` returns at least one entry,
because Python's `split('\n')` never yields an empty list; empty standard
output yields the one-element list `[""]`, so the reported count for such a
domain is never 0. -/
theorem claim_C10_nonempty_on_completion :
    (∀ (domain : String) (verbose : Bool) (o : ProcOut),
        1 ≤ ((check_wayback_urls domain (Except.ok o) verbose).1).length)
    ∧ (∀ (domain : String) (verbose : Bool) (c : Int),
        (check_wayback_urls domain (Except.ok ⟨"", c⟩) verbose).1 = [""]) := by
  constructor
  · intro domain verbose o
    have h := pySplitCh_ne_nil '\n' (pyStrip o.stdout).data
    simp only [check_wayback_urls, pySplit, List.length_map]
    exact Nat.one_le_iff_ne_zero.mpr (fun hz => h (List.length_eq_zero.mp hz))
  · intro domain verbose c
    rfl

/-- C2 counterexample: a waybackurls process that completes with exit status 1
(non-zero) and empty output does NOT make `check_wayback_urls` return an empty
sequence — `subprocess.run` is called without `check=True`, so a non-zero exit
raises nothing and the stdout split `[""]` is returned. -/
theorem claim_C2_counterexample :
    (ProcOut.mk "" 1).exitCode ≠ 0
    ∧ (check_wayback_urls "example.com" (Except.ok (ProcOut.mk "" 1)) false).1
        ≠ ([] : List String) := by
  decide

/-- C2 amended: `check_wayback_urls` returns an empty sequence exactly on
invocation failures that raise an exception (process spawn error or unexpected
exception); a non-zero exit status of the completed subprocess does not raise
and yields a non-empty sequence (the split of its standard output). -/
theorem claim_C2_amended :
    (∀ (domain : String) (verbose : Bool) (e : String),
        (check_wayback_urls domain (Except.error e) verbose).1 = [])
    ∧ (∀ (domain : String) (verbose : Bool) (o : ProcOut), o.exitCode ≠ 0 →
        (check_wayback_urls domain (Except.ok o) verbose).1 ≠ []) := by
  constructor
  · intro domain verbose e
    rfl
  · intro domain verbose o _
    simp only [check_wayback_urls, pySplit]
    exact fun hz => pySplitCh_ne_nil '\n' (pyStrip o.stdout).data (List.map_eq_nil_iff.mp hz)

/-- C2 witness: concrete instances of both amended conjuncts. -/
theorem claim_C2_witness :
    (check_wayback_urls "example.com" (Except.error "spawn failure") false).1 = []
    ∧ (check_wayback_urls "example.com" (Except.ok (ProcOut.mk "" 1)) false).1 ≠ [] :=
  ⟨claim_C2_amended.1 "example.com" false "spawn failure",
   claim_C2_amended.2 "example.com" false (ProcOut.mk "" 1) (by decide)⟩

/-- C5: `check_http_response` returns the integer parsed from the completed
process's stripped standard output, and absent (`None`) when that output does
not parse as a Python integer literal or when the invocation raised; the
embedding is a total function, reflecting that every exception is caught. -/
theorem claim_C5_probe_parse :
    (∀ (domain : String) (verbose : Bool) (e : String),
        (check_http_response domain (Except.error e) verbose).1 = none)
    ∧ (∀ (domain : String) (verbose : Bool) (o : ProcOut),
        (check_http_response domain (Except.ok o) verbose).1 = pyInt (pyStrip o.stdout))
    ∧ (∀ (domain : String) (verbose : Bool) (o : ProcOut),
        pyInt (pyStrip o.stdout) = none →
        (check_http_response domain (Except.ok o) verbose).1 = none)
    ∧ (check_http_response "example.com" (Except.ok ⟨"200\n", 0⟩) false).1 = some 200
    ∧ (check_http_response "example.com" (Except.ok ⟨"FAIL", 7⟩) true).1 = none := by
  have hok : ∀ (domain : String) (verbose : Bool) (o : ProcOut),
      (check_http_response domain (Except.ok o) verbose).1 = pyInt (pyStrip o.stdout) := by
    intro domain verbose o
    cases h : pyInt (pyStrip o.stdout) <;> simp [check_http_response, h]
  refine ⟨fun _ _ _ => rfl, hok, ?_, by decide, by decide⟩
  intro domain verbose o hnone
  rw [hok, hnone]

/-- C5 witness: the parse-failure conjunct at a concrete unparseable output. -/
theorem claim_C5_witness :
    (check_http_response "example.com" (Except.ok (ProcOut.mk "FAIL" 7)) false).1 = none :=
  claim_C5_probe_parse.2.2.1 "example.com" false (ProcOut.mk "FAIL" 7) (by decide)

/-! ### Pipeline claims -/

/-- C1 counterexample: when an output file is configured and opening/writing
it raises (here a permission error), `process_domain` propagates the exception
raised at source line 161 before `print_colored_output` (line 167) ever runs:
no DomainReport is produced for that domain, neither on the console nor in the
file, refuting the claim's "including when opening or writing the output file
fails" part. -/
theorem claim_C1_counterexample :
    process_domain "example.com"
      ⟨Except.ok ⟨"", 0⟩, Except.ok ⟨"200", 0⟩, Except.error "PermissionError"⟩
      false (some "out.txt")
      = Except.error "PermissionError" := by
  rfl

/-- C1 amended: exactly one DomainReport is produced per input domain whenever
no output file is configured or the file append succeeds, even when the
archive lookup or the HTTP probe fails — those failures degrade the count to 0
and the status to absent rather than omitting the report.  (When the file
open/write raises, the report is omitted instead.) -/
theorem claim_C1_amended :
    ∀ (domain : String) (env : PDEnv) (verbose : Bool) (outputFile : Option String),
      (outputFile = none ∨ env.fileAppend = Except.ok ()) →
      ∃ rep con fl,
        process_domain domain env verbose outputFile = Except.ok (rep, con, fl)
        ∧ (∀ e, env.wayback = Except.error e → rep.waybackCount = 0)
        ∧ (∀ e, env.curl = Except.error e → rep.httpStatus = none) := by
  intro domain env verbose outputFile h
  have hwb : ∀ e, env.wayback = Except.error e →
      (check_wayback_urls domain env.wayback verbose).1.length = 0 := by
    intro e he; rw [he]; rfl
  have hcu : ∀ e, env.curl = Except.error e →
      (check_http_response domain env.curl verbose).1 = none := by
    intro e he; rw [he]; rfl
  rcases h with h | h
  · subst h
    exact ⟨_, _, _, rfl, hwb, hcu⟩
  · cases outputFile with
    | none => exact ⟨_, _, _, rfl, hwb, hcu⟩
    | some f =>
      have hpd : process_domain domain env verbose (some f)
          = Except.ok
            (⟨domain, (check_wayback_urls domain env.wayback verbose).1.length,
                (check_http_response domain env.curl verbose).1,
                find_interesting_urls (check_wayback_urls domain env.wayback verbose).1⟩,
              ((check_wayback_urls domain env.wayback verbose).2
                  ++ (check_http_response domain env.curl verbose).2)
                ++ print_colored_output domain
                    (check_wayback_urls domain env.wayback verbose).1.length
                    (check_http_response domain env.curl verbose).1
                    (find_interesting_urls (check_wayback_urls domain env.wayback verbose).1),
              fileLines domain (check_wayback_urls domain env.wayback verbose).1.length
                (check_http_response domain env.curl verbose).1
                (find_interesting_urls (check_wayback_urls domain env.wayback verbose).1)) := by
        simp only [process_domain]
        rw [h]
      exact ⟨_, _, _, hpd, hwb, hcu⟩

/-- C1 witness: with no output file and both subprocess invocations raising,
exactly one report is still produced, with a zero count and an absent status. -/
theorem claim_C1_witness :
    ∃ rep con fl,
      process_domain "example.com"
          ⟨Except.error "spawn failure", Except.error "curl failure", Except.ok ()⟩
          false none
        = Except.ok (rep, con, fl)
      ∧ (∀ e, (PDEnv.mk (Except.error "spawn failure") (Except.error "curl failure")
            (Except.ok ())).wayback = Except.error e → rep.waybackCount = 0)
      ∧ (∀ e, (PDEnv.mk (Except.error "spawn failure") (Except.error "curl failure")
            (Except.ok ())).curl = Except.error e → rep.httpStatus = none) :=
  claim_C1_amended "example.com"
    ⟨Except.error "spawn failure", Except.error "curl failure", Except.ok ()⟩
    false none (Or.inl rfl)

/-- C4 counterexample: a comma-free input that names no existing file is not
taken verbatim as the single domain — the script stores `input_data.strip()`
(source line 178), so surrounding whitespace is removed. -/
theorem claim_C4_counterexample :
    parse_domains (fun _ => none) " a.com " = ["a.com"]
    ∧ parse_domains (fun _ => none) " a.com " ≠ [" a.com "] := by
  decide

/-- C4 amended: the dispatcher classifies in this fixed order — an input
containing a comma is split on commas with each segment trimmed (taking
precedence over any file of that name, so the result is independent of the
file system); otherwise an existing file contributes each of its non-blank
lines, trimmed; otherwise the raw input, trimmed, is the single domain.  In
particular `"a.com,b.com"` yields two domains, a file with two non-blank lines
yields two domains, and `"onlydomain.com"` yields itself. -/
theorem claim_C4_amended :
    (∀ (fs fs2 : FileSys) (input : String), pyIn "," input = true →
        parse_domains fs input = parse_domains fs2 input)
    ∧ (∀ (fs : FileSys) (input : String), pyIn "," input = true →
        parse_domains fs input = (pySplit ',' input).map pyStrip)
    ∧ (∀ (fs : FileSys) (input contents : String),
        pyIn "," input = false → fs input = some contents →
        parse_domains fs input
          = ((pySplit '\n' contents).map pyStrip).filter (fun s => s ≠ ""))
    ∧ (∀ (fs : FileSys) (input : String),
        pyIn "," input = false → fs input = none →
        parse_domains fs input = [pyStrip input])
    ∧ parse_domains (fun _ => none) "a.com,b.com" = ["a.com", "b.com"]
    ∧ parse_domains
        (fun p => if p = "f.txt" then some "a.com\nb.com\n" else none) "f.txt"
        = ["a.com", "b.com"]
    ∧ parse_domains (fun _ => none) "onlydomain.com" = ["onlydomain.com"] := by
  refine ⟨?_, ?_, ?_, ?_, by decide, by decide, by decide⟩
  · intro fs fs2 input h
    rw [parse_domains, parse_domains, if_pos h, if_pos h]
  · intro fs input h
    rw [parse_domains, if_pos h]
  · intro fs input contents h hfs
    rw [parse_domains, if_neg (by simp [h]), hfs]
  · intro fs input h hfs
    rw [parse_domains, if_neg (by simp [h]), hfs]

/-- C4 witness: the comma branch applied at a concrete input, and the
precedence conjunct applied with a file system in which that very input names
an existing file. -/
theorem claim_C4_witness :
    parse_domains (fun _ => some "ignored.example") "a.com,b.com"
        = (pySplit ',' "a.com,b.com").map pyStrip
    ∧ parse_domains (fun _ => some "ignored.example") "a.com,b.com"
        = parse_domains (fun _ => none) "a.com,b.com" :=
  ⟨claim_C4_amended.2.1 (fun _ => some "ignored.example") "a.com,b.com" (by decide),
   claim_C4_amended.1 (fun _ => some "ignored.example") (fun _ => none) "a.com,b.com"
     (by decide)⟩

/-- C9: for every world (file system, subprocess outcomes), input, proxy and
output configuration, running with `-vv` (flags `v := false, vv := true`)
produces exactly the same observable behavior as running with `-v`
(`v := true, vv := false`): the entry point collapses both to
`verbose = args.v or args.vv`. -/
theorem claim_C9_vv_equals_v :
    ∀ (w : World) (input : String) (output proxy : Option String),
      mainRun w ⟨input, output, proxy, false, true⟩
        = mainRun w ⟨input, output, proxy, true, false⟩ :=
  fun _ _ _ _ => rfl

end Recon
